import Mathlib

/-!
Shallow embedding of the reading-notes front-end, file
`src/pages/ReadingRecordsPage.tsx` (the records controller).

The component's React state is modelled as a record `CompState`; each
event handler becomes a pure state transformer.  Asynchronous handlers
additionally take the results of their awaited API calls as explicit
`Except` parameters (the API functions live outside this repository),
and return the list of API calls they issued plus any blocking alerts
they showed, so that "no refetch" and "a blocking alert is shown" are
statable.  JavaScript nullable values become `Option`, and JS
truthiness of a nullable number (`!selectedRecordId`) is embedded
explicitly.
-/

namespace ReadingRecords

/-- A reading-log entry (`Record` in `types/records`): the fields the
page reads or writes.  `title`/`author` are nullable (the code guards
them with `?? ""`), `bookId`/`coverUrl` are nullable. -/
structure Record where
  id : Nat
  title : Option String
  author : Option String
  sentence : String
  comment : String
  recordedAt : String
  bookId : Option Nat
  coverUrl : Option String
deriving DecidableEq, Repr

/-- A candidate catalog book returned by `fetchCandidates`. -/
structure BookCandidate where
  id : Nat
  title : String
  author : String
  coverUrl : Option String
deriving DecidableEq, Repr

/-- The page envelope `PageResult<T>`: one fetched page snapshot. -/
structure PageResult (α : Type) where
  items : List α
  page : Nat
  totalPages : Nat
  hasPrev : Bool
  hasNext : Bool
deriving DecidableEq, Repr

/-- An error thrown by an awaited API call: `e?.message` may be absent. -/
abbrev Err : Type := Option String

/-- The modal sort key, `'title' | 'author'`. -/
inductive SortKey where
  | title
  | author
deriving DecidableEq, Repr

/-- The `useState` cells of `ReadingRecordsPage`, in declaration order. -/
structure CompState where
  data : Option (PageResult Record)
  page : Nat
  size : Nat
  q : String
  queryInput : String
  loading : Bool
  error : Option String
  modalOpen : Bool
  candidates : List BookCandidate
  candidatesLoading : Bool
  selectedRecordId : Option Nat
  modalKeyword : String
  modalSortKey : SortKey
deriving DecidableEq, Repr

/-- The calls a handler can issue against the external API module. -/
inductive ApiCall where
  | fetchMyRecords (page size : Nat) (q : String)
  | fetchCandidates (title author : String)
  | linkRecord (recordId : Nat) (book : BookCandidate)
  | fetchRemoveMatch (recordId : Nat)
deriving DecidableEq, Repr

/-- Result of running one handler: the new component state, the API
calls it issued, and the blocking alerts it showed. -/
structure OpResult where
  state : CompState
  calls : List ApiCall
  alerts : List String
deriving DecidableEq, Repr

/-- Line 17: `const items = data?.items ?? []` — the rendered list. -/
def renderedItems (s : CompState) : List Record :=
  (s.data.map PageResult.items).getD []

/-- JS truthiness of `selectedRecordId : number | null`
(`null` and `0` are falsy). -/
def idTruthy : Option Nat → Bool
  | none => false
  | some rid => rid != 0

end ReadingRecords

namespace ReadingRecords

/-! ### The records fetch effect (lines 52-67) and its staleness flag

The effect body reads, per instance: set `loading := true`,
`error := none`, await `fetchMyRecords {page, size, q}`, and apply the
result only while the instance's local `aborted` flag is still false;
the cleanup returned to React sets `aborted := true`.  We model the
set of effect instances explicitly: starting a new instance (a change
of `page`/`size`/`q`) first runs the previous instance's cleanup, so
every earlier instance's flag is true; resolution of an instance's
await is a separate event carrying the call's result. -/

/-- The fetch effect's dependency triple `{page, size, q}`. -/
structure Query where
  page : Nat
  size : Nat
  q : String
deriving DecidableEq, Repr

/-- One instance of the records fetch effect: its request and its
closed-over `aborted` flag. -/
structure FetchInstance where
  req : Query
  aborted : Bool
deriving DecidableEq, Repr

/-- Events of the fetch-effect lifecycle: an effect instance starts
(deps changed: the previous instance is torn down first), or the
`fetchMyRecords` promise of instance `i` resolves with a result. -/
inductive FetchEv where
  | start (req : Query)
  | resolve (i : Nat) (res : Except Err (PageResult Record))

/-- Component state plus the live record of effect instances. -/
structure EffState where
  comp : CompState
  insts : List FetchInstance

/-- One step of the fetch-effect lifecycle, straight from lines 52-67:
on `start`, cleanup of every previous instance has run (its `aborted`
flag is true), the new instance is appended with `aborted = false`,
and the synchronous prefix of the effect body runs
(`setLoading(true); setError(null)`).  On `resolve i res`, instance
`i`'s continuation runs: `if (!aborted) setData(next)` on success,
`if (!aborted) setError("불러오기 실패")` on failure, and
`finally { if (!aborted) setLoading(false) }`. -/
def fetchStep (s : EffState) : FetchEv → EffState
  | .start req =>
    { comp := { s.comp with loading := true, error := none }
      insts := s.insts.map (fun inst => { inst with aborted := true })
                ++ [{ req := req, aborted := false }] }
  | .resolve i res =>
    match s.insts[i]? with
    | none => s
    | some inst =>
      if inst.aborted then s
      else
        match res with
        | .ok next =>
          { s with comp := { s.comp with data := some next, loading := false } }
        | .error _ =>
          { s with comp := { s.comp with error := some "불러오기 실패", loading := false } }

/-- Run a trace of fetch-effect events. -/
def fetchRun (s : EffState) : List FetchEv → EffState
  | [] => s
  | e :: evs => fetchRun (fetchStep s e) evs

/-- Modelled from the spec's words "the latest non-stale resolved
response": folding over the trace, a resolution is non-stale exactly
when it belongs to the most recently started instance (`i + 1 = n`
where `n` counts the instances started so far); only such successful
resolutions replace the data. -/
def latestNonStaleData :
    Option (PageResult Record) → Nat → List FetchEv → Option (PageResult Record)
  | d, _, [] => d
  | d, n, .start _ :: evs => latestNonStaleData d (n + 1) evs
  | d, n, .resolve i res :: evs =>
    if i + 1 = n then
      match res with
      | .ok p => latestNonStaleData (some p) n evs
      | .error _ => latestNonStaleData d n evs
    else latestNonStaleData d n evs

/-! ### Event handlers (lines 70-175 and 242) -/

/-- Lines 10-13, `getInitialPageSize`: 10 during SSR (`window`
undefined), else 6 when `(max-width: 768px)` matches, 10 otherwise. -/
def getInitialPageSize (windowDefined m : Bool) : Nat :=
  if windowDefined = false then 10
  else if m then 6 else 10

/-- The browser's evaluation of the `(max-width: 768px)` media query
at viewport width `w` (in px). -/
def mqMatches (w : Nat) : Bool := w ≤ 768

/-- Lines 39-44, the media-query effect's `apply`: `next` is 6 when
matching else 10; `setSize(prev => prev === next ? prev : next)`
(functional update, unchanged when equal); `setPage(0)`
unconditionally. -/
def applyMedia (m : Bool) (s : CompState) : CompState :=
  let next : Nat := if m then 6 else 10
  { s with size := if s.size = next then s.size else next
           page := 0 }

/-- Line 156: typing in the search input only writes `queryInput`. -/
def onQueryInputChange (v : String) (s : CompState) : CompState :=
  { s with queryInput := v }

/-- Lines 157-162, the search input's key handler: on `"Enter"`,
`setPage(0); setQ(queryInput.trim())`; any other key does nothing. -/
def onSearchKeyDown (key : String) (s : CompState) : CompState :=
  if key = "Enter" then { s with page := 0, q := s.queryInput.trim }
  else s

/-- Lines 168-171, the search button's click handler:
`setPage(0); setQ(queryInput.trim())`. -/
def onSearchClick (s : CompState) : CompState :=
  { s with page := 0, q := s.queryInput.trim }

/-- Line 242, `onChangePageSize={(s) => { setPage(0); setSize(s); }}`. -/
def onChangePageSize (n : Nat) (s : CompState) : CompState :=
  { s with page := 0, size := n }

/-- Lines 70-96, `openSelectModal(rec)`: remember the record id, seed
the modal keyword/sort key from the record (title preferred when
truthy, i.e. non-empty), open the modal in a loading state, await
`fetchCandidates(rawTitle, rawAuthor)`, store the list (or `[]` on a
swallowed failure), and clear the loading flag. -/
def openSelectModal (rec : Record)
    (fetchRes : Except Err (List BookCandidate)) (s : CompState) : OpResult :=
  let rawTitle := rec.title.getD ""
  let rawAuthor := rec.author.getD ""
  let s1 := { s with selectedRecordId := some rec.id }
  let s2 :=
    if rawTitle ≠ "" then
      { s1 with modalSortKey := SortKey.title, modalKeyword := rawTitle }
    else
      { s1 with modalSortKey := SortKey.author, modalKeyword := rawAuthor }
  let s3 := { s2 with candidatesLoading := true, modalOpen := true }
  match fetchRes with
  | .ok list =>
    { state := { s3 with candidates := list, candidatesLoading := false }
      calls := [.fetchCandidates rawTitle rawAuthor]
      alerts := [] }
  | .error _ =>
    { state := { s3 with candidates := [], candidatesLoading := false }
      calls := [.fetchCandidates rawTitle rawAuthor]
      alerts := [] }

/-- Line 108's alert message: `e?.message ?? "기록과 책 연결에 실패했습니다."`. -/
def linkFailAlert (e : Err) : String := e.getD "기록과 책 연결에 실패했습니다."

/-- Lines 99-110, `handleSelectCandidate(book)`: bail out when
`selectedRecordId` is falsy (`null` or `0`); otherwise await
`linkRecord`, then await `fetchMyRecords({page, size, q})`, store the
refetched page and close the modal; any failure in the `try` block
shows a blocking alert and changes no state. -/
def handleSelectCandidate (book : BookCandidate)
    (linkRes : Except Err Unit) (fetchRes : Except Err (PageResult Record))
    (s : CompState) : OpResult :=
  match s.selectedRecordId with
  | none => { state := s, calls := [], alerts := [] }
  | some rid =>
    if rid = 0 then { state := s, calls := [], alerts := [] }
    else
      match linkRes with
      | .error e =>
        { state := s, calls := [.linkRecord rid book], alerts := [linkFailAlert e] }
      | .ok _ =>
        match fetchRes with
        | .error e =>
          { state := s
            calls := [.linkRecord rid book, .fetchMyRecords s.page s.size s.q]
            alerts := [linkFailAlert e] }
        | .ok updated =>
          { state := { s with data := some updated, modalOpen := false }
            calls := [.linkRecord rid book, .fetchMyRecords s.page s.size s.q]
            alerts := [] }

/-- Lines 113-127, `handleModalSearch`: re-fetch candidates sending the
modal keyword only in the slot selected by the sort key, the other
slot empty; store the list (or `[]` on a swallowed failure) and clear
the loading flag. -/
def handleModalSearch (fetchRes : Except Err (List BookCandidate))
    (s : CompState) : OpResult :=
  let title := match s.modalSortKey with
    | .title => s.modalKeyword
    | .author => ""
  let author := match s.modalSortKey with
    | .author => s.modalKeyword
    | .title => ""
  match fetchRes with
  | .ok list =>
    { state := { s with candidates := list, candidatesLoading := false }
      calls := [.fetchCandidates title author]
      alerts := [] }
  | .error _ =>
    { state := { s with candidates := [], candidatesLoading := false }
      calls := [.fetchCandidates title author]
      alerts := [] }

/-- Line 136's optimistic patch: null out `bookId` on the items whose
id matches (all other fields, `coverUrl` included, untouched). -/
def unlinkPatch (recordId : Nat) (p : PageResult Record) : PageResult Record :=
  { p with items := p.items.map (fun r =>
      if r.id = recordId then { r with bookId := none } else r) }

/-- Lines 130-143, `handleRemoveMatch(recordId)`: await
`fetchRemoveMatch`; on success patch the current snapshot in place
(`setData(prev => prev ? ... : prev)`, no refetch); on failure only
log; either way `candidatesLoading` ends false. -/
def handleRemoveMatch (recordId : Nat) (res : Except Err Unit)
    (s : CompState) : OpResult :=
  match res with
  | .ok _ =>
    { state := { s with data := s.data.map (unlinkPatch recordId)
                        candidatesLoading := false }
      calls := [.fetchRemoveMatch recordId]
      alerts := [] }
  | .error _ =>
    { state := { s with candidatesLoading := false }
      calls := [.fetchRemoveMatch recordId]
      alerts := [] }

/-- Is a call a records-page refetch?  Used to state "no refetch". -/
def ApiCall.isRecordsFetch : ApiCall → Bool
  | .fetchMyRecords _ _ _ => true
  | _ => false

/-! ### Concrete example states (used by witnesses and counterexamples) -/

/-- A concrete linked record. -/
def exRecord : Record :=
  { id := 1, title := some "War and Peace", author := some "Tolstoy"
    sentence := "s", comment := "c", recordedAt := "2024-01-01"
    bookId := some 7, coverUrl := some "cover.jpg" }

/-- A second concrete record, unlinked. -/
def exRecord2 : Record :=
  { id := 2, title := none, author := some "Anon"
    sentence := "s2", comment := "c2", recordedAt := "2024-01-02"
    bookId := none, coverUrl := none }

/-- A concrete page snapshot. -/
def exPage : PageResult Record :=
  { items := [exRecord, exRecord2], page := 0, totalPages := 3
    hasPrev := false, hasNext := true }

/-- A concrete candidate book. -/
def exBook : BookCandidate :=
  { id := 42, title := "War and Peace", author := "Tolstoy"
    coverUrl := some "b.jpg" }

/-- A concrete component state holding `exPage`. -/
def exState : CompState :=
  { data := some exPage, page := 0, size := 10, q := "", queryInput := "  tolstoy "
    loading := false, error := none, modalOpen := false, candidates := []
    candidatesLoading := false, selectedRecordId := some 1
    modalKeyword := "", modalSortKey := SortKey.title }

/-- A concrete fetch-effect dependency triple. -/
def exQuery : Query := { page := 0, size := 10, q := "" }

/-- An effect state whose single instance has been torn down. -/
def exEff : EffState :=
  { comp := exState, insts := [{ req := exQuery, aborted := true }] }

/-! ### Theorems -/

/-- A resolution whose effect instance is unknown (index out of range)
changes nothing. -/
theorem fetchStep_resolve_none (s : EffState) (i : Nat)
    (res : Except Err (PageResult Record)) (hli : s.insts[i]? = none) :
    fetchStep s (FetchEv.resolve i res) = s := by
  simp [fetchStep, hli]

/-- A resolution of a torn-down instance (its `aborted` flag is set)
changes nothing: the three guarded writes are all skipped. -/
theorem fetchStep_resolve_stale (s : EffState) (i : Nat)
    (res : Except Err (PageResult Record)) (inst : FetchInstance)
    (hli : s.insts[i]? = some inst) (hab : inst.aborted = true) :
    fetchStep s (FetchEv.resolve i res) = s := by
  simp [fetchStep, hli, hab]

/-- A successful resolution of the live instance stores the page and
clears the loading flag. -/
theorem fetchStep_resolve_live_ok (s : EffState) (i : Nat)
    (p : PageResult Record) (inst : FetchInstance)
    (hli : s.insts[i]? = some inst) (hab : inst.aborted = false) :
    fetchStep s (FetchEv.resolve i (Except.ok p)) =
      { s with comp := { s.comp with data := some p, loading := false } } := by
  simp [fetchStep, hli, hab]

/-- A failed resolution of the live instance stores the error message
and clears the loading flag. -/
theorem fetchStep_resolve_live_err (s : EffState) (i : Nat) (e : Err)
    (inst : FetchInstance)
    (hli : s.insts[i]? = some inst) (hab : inst.aborted = false) :
    fetchStep s (FetchEv.resolve i (Except.error e)) =
      { s with comp :=
          { s.comp with error := some "불러오기 실패", loading := false } } := by
  simp [fetchStep, hli, hab]

/-- Invariant proof for the records fetch effect: starting from any
component state and an instance list in which exactly the most
recently started instance is un-aborted, the data cell after any
event trace equals the spec-side "latest non-stale resolved
response". -/
theorem fetchRun_data_eq (evs : List FetchEv) :
    ∀ (c : CompState) (l : List FetchInstance) (n : Nat),
      l.length = n →
      (∀ j inst, l[j]? = some inst → (inst.aborted = false ↔ j + 1 = n)) →
      (fetchRun ⟨c, l⟩ evs).comp.data = latestNonStaleData c.data n evs := by
  induction evs with
  | nil => intro c l n _ _; rfl
  | cons e evs ih =>
    intro c l n hlen hinv
    cases e with
    | start req =>
      show (fetchRun (fetchStep ⟨c, l⟩ (FetchEv.start req)) evs).comp.data
            = latestNonStaleData c.data n (FetchEv.start req :: evs)
      simp only [fetchStep, latestNonStaleData]
      apply ih
      · simp [hlen]
      · intro j inst hj
        rcases lt_or_ge j l.length with hlt | hge
        · rw [List.getElem?_append_left (by simpa using hlt),
              List.getElem?_map] at hj
          rcases hl : l[j]? with _ | orig
          · rw [hl] at hj; simp at hj
          · rw [hl] at hj
            simp only [Option.map_some'] at hj
            injection hj with hj
            subst hj
            constructor
            · intro h; simp at h
            · intro h; exfalso; omega
        · rw [List.getElem?_append_right (by simpa using hge)] at hj
          simp only [List.length_map] at hj
          rcases Nat.lt_or_ge l.length j with hgt | hle2
          · rw [List.getElem?_eq_none (by simp; omega)] at hj
            simp at hj
          · have hje : l.length = j := Nat.le_antisymm hge hle2
            subst hje
            simp only [Nat.sub_self, List.getElem?_cons_zero,
              Option.some.injEq] at hj
            subst hj
            constructor
            · intro _; omega
            · intro _; rfl
    | resolve i res =>
      show (fetchRun (fetchStep ⟨c, l⟩ (FetchEv.resolve i res)) evs).comp.data
            = latestNonStaleData c.data n (FetchEv.resolve i res :: evs)
      rcases hli : l[i]? with _ | inst
      · have hge : l.length ≤ i := List.getElem?_eq_none_iff.mp hli
        have hne : ¬ (i + 1 = n) := by omega
        rw [fetchStep_resolve_none ⟨c, l⟩ i res hli]
        simp only [latestNonStaleData, if_neg hne]
        exact ih c l n hlen hinv
      · have hiff := hinv i inst hli
        cases hab : inst.aborted with
        | true =>
          have hne : ¬ (i + 1 = n) := by
            intro h
            have h2 := hiff.mpr h
            rw [hab] at h2
            exact absurd h2 (by decide)
          rw [fetchStep_resolve_stale ⟨c, l⟩ i res inst hli hab]
          simp only [latestNonStaleData, if_neg hne]
          exact ih c l n hlen hinv
        | false =>
          have heq : i + 1 = n := hiff.mp hab
          cases res with
          | ok p =>
            rw [fetchStep_resolve_live_ok ⟨c, l⟩ i p inst hli hab]
            simp only [latestNonStaleData, if_pos heq]
            exact ih _ l n hlen hinv
          | error e =>
            rw [fetchStep_resolve_live_err ⟨c, l⟩ i e inst hli hab]
            simp only [latestNonStaleData, if_pos heq]
            exact ih _ l n hlen hinv

/-- C1: for the records-list fetch effect, a resolution belonging to a
torn-down effect instance (its local `aborted` flag was set by the
cleanup because `page`/`size`/`q` changed again) performs no state
update at all — `data`, `error` and `loading` are untouched — and
consequently, over every trace of effect starts and resolutions, the
rendered list equals the items of the latest non-stale resolved
response. -/
theorem c1_stale_fetch_suppressed :
    (∀ (s : EffState) (i : Nat) (res : Except Err (PageResult Record))
        (inst : FetchInstance),
        s.insts[i]? = some inst → inst.aborted = true →
          fetchStep s (FetchEv.resolve i res) = s)
    ∧ ∀ (c : CompState) (evs : List FetchEv),
        renderedItems (fetchRun ⟨c, []⟩ evs).comp
          = (Option.map PageResult.items
              (latestNonStaleData c.data 0 evs)).getD [] := by
  constructor
  · exact fun s i res inst hli hab => fetchStep_resolve_stale s i res inst hli hab
  · intro c evs
    unfold renderedItems
    rw [fetchRun_data_eq evs c [] 0 rfl (by intro j inst h; simp at h)]

/-- Witness for C1: a stale resolution at a concrete effect state is a
no-op, and the rendered list matches the latest non-stale response on
a concrete trace (a slow older request resolving after teardown). -/
theorem c1_stale_fetch_suppressed_witness :
    exEff.insts[0]? = some { req := exQuery, aborted := true } ∧
    fetchStep exEff (FetchEv.resolve 0 (Except.ok exPage)) = exEff ∧
    renderedItems (fetchRun ⟨exState, []⟩
        [FetchEv.start exQuery, FetchEv.start { exQuery with q := "tolstoy" },
         FetchEv.resolve 1 (Except.ok exPage),
         FetchEv.resolve 0 (Except.ok { exPage with items := [] })]).comp
      = (Option.map PageResult.items
          (latestNonStaleData exState.data 0
            [FetchEv.start exQuery, FetchEv.start { exQuery with q := "tolstoy" },
             FetchEv.resolve 1 (Except.ok exPage),
             FetchEv.resolve 0 (Except.ok { exPage with items := [] })])).getD [] :=
  ⟨rfl,
   c1_stale_fetch_suppressed.1 exEff 0 (Except.ok exPage)
     { req := exQuery, aborted := true } rfl rfl,
   c1_stale_fetch_suppressed.2 exState
     [FetchEv.start exQuery, FetchEv.start { exQuery with q := "tolstoy" },
      FetchEv.resolve 1 (Except.ok exPage),
      FetchEv.resolve 0 (Except.ok { exPage with items := [] })]⟩

/-- C2: when `handleRemoveMatch recordId` succeeds, the page data is
replaced by a snapshot in which exactly the items whose id equals
`recordId` get `bookId := null` (all their other fields and every
other item unchanged), the pagination metadata is unchanged, and no
records-page refetch is issued (the only call is the remove-match
endpoint). -/
theorem c2_remove_match_patches_in_place
    (recordId : Nat) (s : CompState) (p : PageResult Record)
    (h : s.data = some p) :
    ∃ p', (handleRemoveMatch recordId (Except.ok ()) s).state.data = some p'
      ∧ p'.page = p.page ∧ p'.totalPages = p.totalPages
      ∧ p'.hasPrev = p.hasPrev ∧ p'.hasNext = p.hasNext
      ∧ p'.items.length = p.items.length
      ∧ (∀ j : Nat, p'.items[j]? = (p.items[j]?).map (fun r =>
          if r.id = recordId then { r with bookId := none } else r))
      ∧ (handleRemoveMatch recordId (Except.ok ()) s).calls
          = [ApiCall.fetchRemoveMatch recordId]
      ∧ ((handleRemoveMatch recordId (Except.ok ()) s).calls.all
          (fun call => ! call.isRecordsFetch)) = true := by
  refine ⟨unlinkPatch recordId p, ?_, rfl, rfl, rfl, rfl, by simp [unlinkPatch],
    ?_, rfl, by simp [handleRemoveMatch, ApiCall.isRecordsFetch]⟩
  · simp [handleRemoveMatch, h]
  · intro j
    simp [unlinkPatch]

/-- Witness for C2: removing the match of record 1 on the concrete
state nulls exactly that record's `bookId` and keeps everything else. -/
theorem c2_remove_match_patches_in_place_witness :
    exState.data = some exPage ∧
    ∃ p', (handleRemoveMatch 1 (Except.ok ()) exState).state.data = some p'
      ∧ p'.page = exPage.page ∧ p'.totalPages = exPage.totalPages
      ∧ p'.hasPrev = exPage.hasPrev ∧ p'.hasNext = exPage.hasNext
      ∧ p'.items.length = exPage.items.length
      ∧ (∀ j : Nat, p'.items[j]? = (exPage.items[j]?).map (fun r =>
          if r.id = 1 then { r with bookId := none } else r))
      ∧ (handleRemoveMatch 1 (Except.ok ()) exState).calls
          = [ApiCall.fetchRemoveMatch 1]
      ∧ ((handleRemoveMatch 1 (Except.ok ()) exState).calls.all
          (fun call => ! call.isRecordsFetch)) = true :=
  ⟨rfl, c2_remove_match_patches_in_place 1 exState exPage rfl⟩

/-- C3 counterexample: the claim says link/unlink rewrite *both* the
`bookId` and `coverUrl` fields of the mutated item, but the unlink
patch (line 136, `{ ...r, bookId: null }`) touches `bookId` only.
Concretely: record 1 starts with `bookId = some 7` and
`coverUrl = some "cover.jpg"`; after a successful
`handleRemoveMatch 1` its `bookId` is nulled while `coverUrl` still
holds its old value — the `coverUrl` field was not rewritten. -/
theorem c3_unlink_keeps_coverUrl_counterexample :
    exRecord.bookId = some 7 ∧ exRecord.coverUrl = some "cover.jpg" ∧
    ((handleRemoveMatch 1 (Except.ok ()) exState).state.data.map
        (fun p => p.items.map (fun r => (r.id, r.bookId, r.coverUrl))))
      = some [(1, none, some "cover.jpg"), (2, none, none)] := by
  refine ⟨rfl, rfl, rfl⟩

/-- C3 amended: the unlink patch rewrites only the `bookId` field (to
null) of the items whose id matches, leaving `coverUrl` (and every
other field) of every item unchanged; the link operation does not
rewrite individual items at all — on success it replaces the whole
page snapshot with the refetched server response. -/
theorem c3_link_unlink_mutations :
    (∀ (recordId : Nat) (p : PageResult Record) (j : Nat),
        (unlinkPatch recordId p).items[j]? = (p.items[j]?).map (fun r =>
          if r.id = recordId then { r with bookId := none } else r))
    ∧ (∀ (recordId : Nat) (p : PageResult Record) (j : Nat),
        ((unlinkPatch recordId p).items[j]?).map Record.coverUrl
          = (p.items[j]?).map Record.coverUrl)
    ∧ ∀ (book : BookCandidate) (s : CompState) (rid : Nat)
        (p : PageResult Record),
        s.selectedRecordId = some rid → rid ≠ 0 →
        (handleSelectCandidate book (Except.ok ()) (Except.ok p) s).state.data
          = some p := by
  refine ⟨?_, ?_, ?_⟩
  · intro recordId p j
    simp [unlinkPatch]
  · intro recordId p j
    simp only [unlinkPatch, List.getElem?_map]
    cases p.items[j]? with
    | none => rfl
    | some r =>
      simp only [Option.map_some']
      split <;> rfl
  · intro book s rid p hsel hrid
    simp [handleSelectCandidate, hsel, hrid]

/-- Witness for C3's amended statement: concrete unlink patch of
record 1 and concrete successful link flow. -/
theorem c3_link_unlink_mutations_witness :
    ((unlinkPatch 1 exPage).items[0]? = (exPage.items[0]?).map (fun r =>
        if r.id = 1 then { r with bookId := none } else r))
    ∧ ((unlinkPatch 1 exPage).items[0]?).map Record.coverUrl
        = (exPage.items[0]?).map Record.coverUrl
    ∧ exState.selectedRecordId = some 1
    ∧ (handleSelectCandidate exBook (Except.ok ()) (Except.ok exPage)
          exState).state.data = some exPage :=
  ⟨c3_link_unlink_mutations.1 1 exPage 0,
   c3_link_unlink_mutations.2.1 1 exPage 0,
   rfl,
   c3_link_unlink_mutations.2.2 exBook exState 1 exPage rfl (by decide)⟩

/-- C4: with a truthy `selectedRecordId`, a fully successful
`handleSelectCandidate` issues `linkRecord` then a refetch with
exactly the current `{page, size, q}`, stores the refetched page,
closes the modal and shows no alert; if `linkRecord` throws, only the
link call was issued, a single blocking alert is shown and the state
is completely unchanged; if the refetch throws, both calls were
issued, a single blocking alert is shown and the state is completely
unchanged. -/
theorem c4_select_candidate_link_flow
    (book : BookCandidate) (s : CompState) (rid : Nat)
    (hsel : s.selectedRecordId = some rid) (hrid : rid ≠ 0) :
    (∀ p : PageResult Record,
        handleSelectCandidate book (Except.ok ()) (Except.ok p) s =
          { state := { s with data := some p, modalOpen := false }
            calls := [ApiCall.linkRecord rid book,
                      ApiCall.fetchMyRecords s.page s.size s.q]
            alerts := [] })
    ∧ (∀ (e : Err) (fres : Except Err (PageResult Record)),
        handleSelectCandidate book (Except.error e) fres s =
          { state := s
            calls := [ApiCall.linkRecord rid book]
            alerts := [linkFailAlert e] })
    ∧ (∀ e : Err,
        handleSelectCandidate book (Except.ok ()) (Except.error e) s =
          { state := s
            calls := [ApiCall.linkRecord rid book,
                      ApiCall.fetchMyRecords s.page s.size s.q]
            alerts := [linkFailAlert e] }) := by
  refine ⟨?_, ?_, ?_⟩
  · intro p
    simp [handleSelectCandidate, hsel, hrid]
  · intro e fres
    simp [handleSelectCandidate, hsel, hrid]
  · intro e
    simp [handleSelectCandidate, hsel, hrid]

/-- Witness for C4: the three branches at the concrete state whose
`selectedRecordId` is 1. -/
theorem c4_select_candidate_link_flow_witness :
    exState.selectedRecordId = some 1
    ∧ (handleSelectCandidate exBook (Except.ok ()) (Except.ok exPage) exState =
        { state := { exState with data := some exPage, modalOpen := false }
          calls := [ApiCall.linkRecord 1 exBook,
                    ApiCall.fetchMyRecords exState.page exState.size exState.q]
          alerts := [] })
    ∧ (handleSelectCandidate exBook (Except.error (some "boom"))
          (Except.ok exPage) exState =
        { state := exState
          calls := [ApiCall.linkRecord 1 exBook]
          alerts := [linkFailAlert (some "boom")] })
    ∧ (handleSelectCandidate exBook (Except.ok ()) (Except.error none) exState =
        { state := exState
          calls := [ApiCall.linkRecord 1 exBook,
                    ApiCall.fetchMyRecords exState.page exState.size exState.q]
          alerts := [linkFailAlert none] }) :=
  ⟨rfl,
   (c4_select_candidate_link_flow exBook exState 1 rfl (by decide)).1 exPage,
   (c4_select_candidate_link_flow exBook exState 1 rfl (by decide)).2.1
     (some "boom") (Except.ok exPage),
   (c4_select_candidate_link_flow exBook exState 1 rfl (by decide)).2.2 none⟩

/-- C5: committing a search — Enter in the input or the search button —
sets `q` to the trimmed input and resets `page` to 0 (all other
cells, the raw input included, untouched); the pagination widget's
size control resets `page` to 0 and sets the new size; typing alone
changes only `queryInput`, never `q` or `page` (or `size`). -/
theorem c5_search_commit_resets_page :
    ∀ (s : CompState) (v : String) (n : Nat),
      onSearchKeyDown "Enter" (onQueryInputChange v s)
        = { s with queryInput := v, page := 0, q := v.trim }
      ∧ onSearchClick (onQueryInputChange v s)
        = { s with queryInput := v, page := 0, q := v.trim }
      ∧ onChangePageSize n s = { s with page := 0, size := n }
      ∧ (onQueryInputChange v s).q = s.q
      ∧ (onQueryInputChange v s).page = s.page
      ∧ (onQueryInputChange v s).size = s.size
      ∧ ∀ k : String, k ≠ "Enter" →
          onSearchKeyDown k (onQueryInputChange v s) = onQueryInputChange v s := by
  intro s v n
  refine ⟨?_, rfl, rfl, rfl, rfl, rfl, ?_⟩
  · simp [onSearchKeyDown, onQueryInputChange]
  · intro k hk
    simp [onSearchKeyDown, hk]

/-- Witness for C5 (for the non-Enter key clause, the only
hypothesis): a concrete state, input and key. -/
theorem c5_search_commit_resets_page_witness :
    ("a" : String) ≠ "Enter" ∧
    onSearchKeyDown "a" (onQueryInputChange "tolstoy" exState)
      = onQueryInputChange "tolstoy" exState :=
  ⟨by decide,
   (c5_search_commit_resets_page exState "tolstoy" 6).2.2.2.2.2.2 "a" (by decide)⟩

/-- C6 counterexample: the claim says the media-query event is a no-op
whenever the mapped size already equals the current size, but the
handler (line 43) calls `setPage(0)` unconditionally.  Concretely:
desktop width (mapped size 10, current size 10) with the list on page
3 — the event leaves `size` at 10 yet resets `page` from 3 to 0, a
state change that re-triggers the fetch effect. -/
theorem c6_media_event_counterexample :
    (applyMedia false { exState with page := 3 }).size
        = ({ exState with page := 3 } : CompState).size
    ∧ (applyMedia false { exState with page := 3 }).page = 0
    ∧ applyMedia false { exState with page := 3 }
        ≠ ({ exState with page := 3 } : CompState) :=
  ⟨rfl, rfl, fun h => absurd (congrArg CompState.page h) (by decide)⟩

/-- C6 amended: the listener maps width ≤768px to size 6 and greater
widths to size 10; the `size` cell keeps its value when the mapped
size equals the current one, but `page` is reset to 0
unconditionally — so the event is a no-op only when the mapped size
equals the current size *and* the page is already 0; when the size
differs it is updated and `page` is reset to 0. -/
theorem c6_media_event_amended :
    (∀ w : Nat, (if mqMatches w then 6 else 10 : Nat)
        = if w ≤ 768 then 6 else 10)
    ∧ (∀ (m : Bool) (s : CompState),
        applyMedia m s = { s with size := if m then 6 else 10, page := 0 })
    ∧ ∀ (m : Bool) (s : CompState),
        s.size = (if m then 6 else 10) → s.page = 0 → applyMedia m s = s := by
  refine ⟨?_, ?_, ?_⟩
  · intro w
    simp [mqMatches]
  · intro m s
    unfold applyMedia
    rcases eq_or_ne s.size (if m then 6 else 10) with he | hne
    · simp [he]
    · simp [hne]
  · intro m s he hp
    cases s
    simp_all [applyMedia]

/-- Witness for C6's amended statement: concrete no-op (mobile width,
size already 6, page already 0) and a concrete size change. -/
theorem c6_media_event_amended_witness :
    ((if mqMatches 500 then 6 else 10 : Nat) = if 500 ≤ 768 then 6 else 10)
    ∧ applyMedia true { exState with size := 6 } = { exState with size := 6 }
    ∧ applyMedia true exState = { exState with size := 6, page := 0 } :=
  ⟨c6_media_event_amended.1 500,
   c6_media_event_amended.2.2 true { exState with size := 6 } rfl rfl,
   c6_media_event_amended.2.1 true exState⟩

/-- C7: `openSelectModal(record)` with a non-empty title seeds the
modal with `sortKey = title` and the record's title as keyword; with
an empty or missing title it seeds `sortKey = author` and the
record's author (empty when missing) as keyword — regardless of how
the candidate fetch turns out. -/
theorem c7_modal_seeding (rec : Record) (s : CompState)
    (fres : Except Err (List BookCandidate)) :
    (rec.title.getD "" ≠ "" →
        (openSelectModal rec fres s).state.modalSortKey = SortKey.title
        ∧ (openSelectModal rec fres s).state.modalKeyword = rec.title.getD "")
    ∧ (rec.title.getD "" = "" →
        (openSelectModal rec fres s).state.modalSortKey = SortKey.author
        ∧ (openSelectModal rec fres s).state.modalKeyword = rec.author.getD "") := by
  constructor <;> intro h <;> cases fres <;> simp [openSelectModal, h]

/-- Witness for C7: a record with a non-empty title seeds by title, a
record with a missing title seeds by author. -/
theorem c7_modal_seeding_witness :
    exRecord.title.getD "" ≠ "" ∧ exRecord2.title.getD "" = "" ∧
    ((openSelectModal exRecord (Except.ok []) exState).state.modalSortKey
        = SortKey.title
      ∧ (openSelectModal exRecord (Except.ok []) exState).state.modalKeyword
        = exRecord.title.getD "")
    ∧ (openSelectModal exRecord2 (Except.ok []) exState).state.modalSortKey
        = SortKey.author
      ∧ (openSelectModal exRecord2 (Except.ok []) exState).state.modalKeyword
        = exRecord2.author.getD "" :=
  ⟨by decide, by decide,
   (c7_modal_seeding exRecord exState (Except.ok [])).1 (by decide),
   (c7_modal_seeding exRecord2 exState (Except.ok [])).2 (by decide)⟩

/-- C8: `handleModalSearch` issues exactly one `fetchCandidates` call,
passing the modal keyword in the slot matching the active sort key
and the empty string in the other slot. -/
theorem c8_modal_search_slots (s : CompState)
    (fres : Except Err (List BookCandidate)) :
    (s.modalSortKey = SortKey.title →
        (handleModalSearch fres s).calls
          = [ApiCall.fetchCandidates s.modalKeyword ""])
    ∧ (s.modalSortKey = SortKey.author →
        (handleModalSearch fres s).calls
          = [ApiCall.fetchCandidates "" s.modalKeyword]) := by
  constructor <;> intro h <;> cases fres <;> simp [handleModalSearch, h]

/-- Witness for C8: both sort keys at a concrete modal state. -/
theorem c8_modal_search_slots_witness :
    exState.modalSortKey = SortKey.title ∧
    (handleModalSearch (Except.ok []) exState).calls
      = [ApiCall.fetchCandidates exState.modalKeyword ""] ∧
    (handleModalSearch (Except.ok [])
        { exState with modalSortKey := SortKey.author }).calls
      = [ApiCall.fetchCandidates ""
          ({ exState with modalSortKey := SortKey.author } : CompState).modalKeyword] :=
  ⟨rfl,
   (c8_modal_search_slots exState (Except.ok [])).1 rfl,
   (c8_modal_search_slots { exState with modalSortKey := SortKey.author }
     (Except.ok [])).2 rfl⟩

/-- C9: a failed candidate fetch is swallowed: in `openSelectModal` the
candidates list ends empty, the modal is open (it was opened before
the await and the failure does not close it), the loading flag ends
false, the page error cell is untouched and no alert is shown; in
`handleModalSearch` the candidates list ends empty and the modal-open
flag is literally unchanged, the loading flag ends false, the page
error cell is untouched and no alert is shown. -/
theorem c9_candidate_failure_swallowed (s : CompState) (rec : Record)
    (e : Err) :
    ((openSelectModal rec (Except.error e) s).state.candidates = []
      ∧ (openSelectModal rec (Except.error e) s).state.modalOpen = true
      ∧ (openSelectModal rec (Except.error e) s).state.candidatesLoading = false
      ∧ (openSelectModal rec (Except.error e) s).state.error = s.error
      ∧ (openSelectModal rec (Except.error e) s).alerts = [])
    ∧ (handleModalSearch (Except.error e) s).state.candidates = []
      ∧ (handleModalSearch (Except.error e) s).state.modalOpen = s.modalOpen
      ∧ (handleModalSearch (Except.error e) s).state.candidatesLoading = false
      ∧ (handleModalSearch (Except.error e) s).state.error = s.error
      ∧ (handleModalSearch (Except.error e) s).alerts = [] := by
  refine ⟨⟨?_, ?_, ?_, ?_, ?_⟩, rfl, rfl, rfl, rfl, rfl⟩ <;>
    by_cases h : rec.title.getD "" ≠ "" <;> simp [openSelectModal, h]

/-- C10: invoking `handleSelectCandidate` while `selectedRecordId` is
falsy (`null`, or `0`) returns immediately: no `linkRecord` call, no
refetch, no alert, and the state is completely unchanged. -/
theorem c10_select_candidate_falsy_noop (book : BookCandidate)
    (linkRes : Except Err Unit) (fetchRes : Except Err (PageResult Record))
    (s : CompState) (h : idTruthy s.selectedRecordId = false) :
    handleSelectCandidate book linkRes fetchRes s
      = { state := s, calls := [], alerts := [] } := by
  cases hsel : s.selectedRecordId with
  | none => simp [handleSelectCandidate, hsel]
  | some rid =>
    have hz : rid = 0 := by
      rw [hsel] at h
      simpa [idTruthy] using h
    subst hz
    simp [handleSelectCandidate, hsel]

/-- Witness for C10: the falsy value 0 at a concrete state. -/
theorem c10_select_candidate_falsy_noop_witness :
    idTruthy ({ exState with selectedRecordId := some 0 } : CompState).selectedRecordId
      = false ∧
    handleSelectCandidate exBook (Except.ok ()) (Except.ok exPage)
        { exState with selectedRecordId := some 0 }
      = { state := { exState with selectedRecordId := some 0 }
          calls := [], alerts := [] } :=
  ⟨by decide,
   c10_select_candidate_falsy_noop exBook (Except.ok ()) (Except.ok exPage)
     { exState with selectedRecordId := some 0 } (by decide)⟩

end ReadingRecords
